import Mathlib

/-!
Shallow embedding of `tweet2elasticsearch.py` (gwu-libraries/tweet2elasticsearch):
the record extractor (`gen_tweets`), the query builder (`construct_query`), the
duplicate detector (`already_indexed`), the batch indexer (`record_tweets`) and
the two source walkers (`walk_local_directory`, `walk_bucket`), together with the
MD5 fingerprint computation the local walker performs (`hashlib.md5(filepath)`).

Python values are modelled explicitly: `Option` stands for a possibly-`None`
argument, Python truthiness of strings, lists and optional ints is spelled out
(`pyStrTruthy`, `pyListTruthy`, `pyIntTruthy`), an uncaught Python exception is
an `Except.error` or an aborted generator, and the decompressed file content is
a `String` iterated line by line exactly as `StringIO` iteration does (each line
keeps its trailing newline; `tell` is the cumulative length of the lines read).
All positions are counted in characters; the concrete inputs used below are
ASCII, where characters and bytes coincide.
-/

namespace T2E

/-- A parsed JSON value, the result of a successful `json.loads` on one line. -/
inductive Json where
  | null
  | bool (b : Bool)
  | num (n : Int)
  | str (s : String)
  | arr (elems : List Json)
  | obj (fields : List (String × Json))

/-- The double-quote character. -/
def quoteChar : Char := Char.ofNat 34

/-- The backslash character. -/
def backslashChar : Char := Char.ofNat 92

/-- The opening-brace character. -/
def lbraceChar : Char := Char.ofNat 123

/-- The closing-brace character. -/
def rbraceChar : Char := Char.ofNat 125

/-- JSON whitespace. -/
def isWsChar (c : Char) : Bool := c = ' ' || c = '\t' || c = '\n' || c = '\r'

/-- Drop leading JSON whitespace. -/
def skipWs : List Char → List Char
  | c :: cs => if isWsChar c then skipWs cs else c :: cs
  | [] => []

/-- The characters of a JSON string literal after the opening quote, with the
basic escapes; returns the decoded characters and the input after the closing
quote. -/
def parseStringChars : Nat → List Char → Option (List Char × List Char)
  | 0, _ => none
  | _, [] => none
  | fuel + 1, c :: cs =>
    if c = quoteChar then some ([], cs)
    else if c = backslashChar then
      match cs with
      | [] => none
      | e :: cs2 =>
        let dec : Option Char :=
          if e = quoteChar then some quoteChar
          else if e = backslashChar then some backslashChar
          else if e = '/' then some '/'
          else if e = 'n' then some '\n'
          else if e = 't' then some '\t'
          else if e = 'r' then some '\r'
          else none
        match dec with
        | none => none
        | some d =>
          match parseStringChars fuel cs2 with
          | some (rest, rem) => some (d :: rest, rem)
          | none => none
    else
      match parseStringChars fuel cs with
      | some (rest, rem) => some (c :: rest, rem)
      | none => none

/-- The longest leading run of decimal digits. -/
def takeDigits : List Char → List Char × List Char
  | [] => ([], [])
  | c :: cs =>
    if c.isDigit then
      let (d, r) := takeDigits cs
      (c :: d, r)
    else ([], c :: cs)

/-- The value of a digit run. -/
def digitsToNat (ds : List Char) : Nat :=
  ds.foldl (fun a c => a * 10 + (c.toNat - 48)) 0

/-- `l` with the literal `pre` removed from its front, or `none`. -/
def dropLit : List Char → List Char → Option (List Char)
  | [], l => some l
  | p :: ps, c :: cs => if c = p then dropLit ps cs else none
  | _ :: _, [] => none

mutual

/-- One JSON value, fuel-bounded recursive descent: the subset `json.loads`
accepts that the tweet-capture lines use (objects, arrays, strings with basic
escapes, integers, `true`/`false`/`null`). Anything else fails, as
`json.loads` raises on a non-JSON line. -/
def parseVal : Nat → List Char → Option (Json × List Char)
  | 0, _ => none
  | fuel + 1, input =>
    match skipWs input with
    | [] => none
    | c :: cs =>
      if c = quoteChar then
        match parseStringChars (fuel + 1) cs with
        | some (chars, rem) => some (Json.str (String.mk chars), rem)
        | none => none
      else if c = lbraceChar then
        match skipWs cs with
        | d :: ds =>
          if d = rbraceChar then some (Json.obj [], ds)
          else
            match parseFields fuel (d :: ds) with
            | some (fields, rem) => some (Json.obj fields, rem)
            | none => none
        | [] => none
      else if c = '[' then
        match skipWs cs with
        | d :: ds =>
          if d = ']' then some (Json.arr [], ds)
          else
            match parseElems fuel (d :: ds) with
            | some (elems, rem) => some (Json.arr elems, rem)
            | none => none
        | [] => none
      else if c = 't' then
        match dropLit ['r', 'u', 'e'] cs with
        | some rem => some (Json.bool true, rem)
        | none => none
      else if c = 'f' then
        match dropLit ['a', 'l', 's', 'e'] cs with
        | some rem => some (Json.bool false, rem)
        | none => none
      else if c = 'n' then
        match dropLit ['u', 'l', 'l'] cs with
        | some rem => some (Json.null, rem)
        | none => none
      else if c = '-' then
        match takeDigits cs with
        | ([], _) => none
        | (ds, rem) => some (Json.num (-(digitsToNat ds : Int)), rem)
      else if c.isDigit then
        match takeDigits (c :: cs) with
        | ([], _) => none
        | (ds, rem) => some (Json.num (digitsToNat ds : Int), rem)
      else none

/-- The fields of a JSON object after its opening brace (nonempty case). -/
def parseFields : Nat → List Char → Option (List (String × Json) × List Char)
  | 0, _ => none
  | fuel + 1, input =>
    match skipWs input with
    | c :: cs =>
      if c = quoteChar then
        match parseStringChars (fuel + 1) cs with
        | some (key, afterKey) =>
          match skipWs afterKey with
          | ':' :: afterColon =>
            match parseVal fuel afterColon with
            | some (v, afterVal) =>
              match skipWs afterVal with
              | ',' :: afterComma =>
                match parseFields fuel afterComma with
                | some (fields, rem) => some ((String.mk key, v) :: fields, rem)
                | none => none
              | d :: ds =>
                if d = rbraceChar then some ([(String.mk key, v)], ds) else none
              | [] => none
            | none => none
          | _ => none
        | none => none
      else none
    | [] => none

/-- The elements of a JSON array after its opening bracket (nonempty case). -/
def parseElems : Nat → List Char → Option (List Json × List Char)
  | 0, _ => none
  | fuel + 1, input =>
    match parseVal fuel input with
    | some (v, afterVal) =>
      match skipWs afterVal with
      | ',' :: afterComma =>
        match parseElems fuel afterComma with
        | some (elems, rem) => some (v :: elems, rem)
        | none => none
      | ']' :: ds => some ([v], ds)
      | _ => none
    | none => none

end

/-- `json.loads` on one line: the whole line must be one JSON value, with
surrounding whitespace allowed; `none` is a raised `ValueError`. -/
def json_loads (s : String) : Option Json :=
  match parseVal (4 * s.length + 4) s.data with
  | some (v, rest) => if (skipWs rest).isEmpty then some v else none
  | none => none

/-- Python `uline[k]` on a parsed JSON object: the value at key `k`, `none`
standing for a raised `KeyError` (or a lookup on a non-object). -/
def Json.getKey (j : Json) (k : String) : Option Json :=
  match j with
  | .obj fields => (fields.find? (fun kv => decide (kv.1 = k))).map (fun kv => kv.2)
  | _ => none

/-- Python `k in uline` for a parsed JSON object line. -/
def Json.hasKey (j : Json) (k : String) : Bool := (j.getKey k).isSome

/-- The elements of a JSON array, `none` for a non-array (a `TypeError` when
iterated). -/
def Json.asArr : Json → Option (List Json)
  | .arr elems => some elems
  | _ => none

/-- The characters after the last slash. -/
def basenameAux : List Char → List Char → List Char
  | [], acc => acc.reverse
  | c :: cs, acc => if c = '/' then basenameAux cs [] else basenameAux cs (c :: acc)

/-- `os.path.basename`. -/
def basename (p : String) : String := String.mk (basenameAux p.data [])

/-- The reduced tweet document `gen_tweets` yields (the `_source` dict `s`):
only some of the tweet's fields, plus the file name and the offset in the
file. The extracted values keep their JSON shape. -/
structure TweetRecord where
  file : String
  offset : Nat
  id : Json
  screen_name : Json
  text : Json
  created_at : Json
  user_mentions : List Json
  hashtags : List Json

/-- The dict `s` built for one parsed line: every bracket lookup of the source
(`uline["user"]["screen_name"]`, `uline["text"]`, `uline["created_at"]`, the
`entities` loops) in order; `none` is an uncaught `KeyError`/`TypeError` that
aborts the generator. -/
def buildTweet (filepath : String) (offset : Nat) (uline : Json) : Option TweetRecord := do
  let i ← uline.getKey "id"
  let user ← uline.getKey "user"
  let sn ← user.getKey "screen_name"
  let tx ← uline.getKey "text"
  let ca ← uline.getKey "created_at"
  let ents ← uline.getKey "entities"
  let ums ← (← ents.getKey "user_mentions").asArr
  let mentions ← ums.mapM (fun m => m.getKey "screen_name")
  let hts ← (← ents.getKey "hashtags").asArr
  let tags ← hts.mapM (fun h => h.getKey "text")
  pure { file := basename filepath, offset := offset, id := i, screen_name := sn,
         text := tx, created_at := ca, user_mentions := mentions, hashtags := tags }

/-- The content split the way `StringIO` iteration yields lines: each line
keeps its trailing newline; a final fragment without a newline is a line too. -/
def splitLinesKeep (s : String) : List String :=
  go s.data []
where
  go : List Char → List Char → List String
    | [], [] => []
    | [], acc => [String.mk acc.reverse]
    | c :: cs, acc =>
      if c = '\n' then String.mk (acc.reverse ++ ['\n']) :: go cs []
      else go cs (c :: acc)

/-- `f.seek(off); f.readline()` on the decompressed content: the characters
from `off` up to and including the next newline. -/
def lineAt (content : String) (off : Nat) : String :=
  String.mk (go (content.data.drop off))
where
  go : List Char → List Char
    | [] => []
    | c :: cs => if c = '\n' then ['\n'] else c :: go cs

/-- The loop of `gen_tweets` over the remaining lines. `offset` is
`file_contents.tell()` after the previously read line; `prev` is the current
value of the Python variable `uline`, which the `try/except` of the source
leaves untouched when `json.loads` fails (the warning branch has no
`continue`), and which is unbound (`none`) before the first successful parse.
Returns the records yielded and, when an uncaught exception ends the
iteration, its name. -/
def genTweetsFrom (filepath : String) :
    List String → Nat → Option Json → List TweetRecord × Option String
  | [], _, _ => ([], none)
  | line :: rest, offset, prev =>
    let nextOff := offset + line.length
    if line = "\n" then genTweetsFrom filepath rest nextOff prev
    else
      -- try: uline = json.loads(unicode(line)) / except: log.warn(...)
      let uline? : Option Json :=
        match json_loads line with
        | some v => some v
        | none => prev
      match uline? with
      | none => ([], some "NameError")
      | some uline =>
        if uline.hasKey "delete" then genTweetsFrom filepath rest nextOff (some uline)
        else if uline.hasKey "id" then
          match buildTweet filepath offset uline with
          | none => ([], some "KeyError")
          | some r =>
            let (rs, err) := genTweetsFrom filepath rest nextOff (some uline)
            (r :: rs, err)
        else genTweetsFrom filepath rest nextOff (some uline)

/-- `gen_tweets(filepath, file_contents)` run to exhaustion: the records it
yields in order and, when iteration ends in an uncaught exception instead of
`StopIteration`, that exception's name. -/
def gen_tweets (filepath content : String) : List TweetRecord × Option String :=
  genTweetsFrom filepath (splitLinesKeep content) 0 none

/-! ## Query builder -/

/-- Python truthiness of an optional string: `None` and `""` are falsy. -/
def pyStrTruthy : Option String → Bool
  | none => false
  | some s => !s.data.isEmpty

/-- Python truthiness of an optional list: `None` and `[]` are falsy. -/
def pyListTruthy : Option (List String) → Bool
  | none => false
  | some l => !l.isEmpty

/-- Python truthiness of an optional int: `None` and `0` are falsy. -/
def pyIntTruthy : Option Nat → Bool
  | none => false
  | some n => n != 0

/-- One `terms` filter clause appended to the `must` list: matches documents
whose `field` holds ANY of `vals` (OR semantics within the field). -/
def termsClause (field : String) (vals : List String) : Json :=
  Json.obj [("terms", Json.obj [(field, Json.arr (vals.map Json.str))])]

/-- The `range` filter clause on `created_at`: the dict `ca` of the source,
with `gte` exactly when `date_from` is truthy and `lte` exactly when
`date_to` is truthy (both bounds inclusive). -/
def rangeClause (date_from date_to : Option String) : Json :=
  Json.obj [("range", Json.obj [("created_at", Json.obj (
    (if pyStrTruthy date_from then [("gte", Json.str (date_from.getD ""))] else []) ++
    (if pyStrTruthy date_to then [("lte", Json.str (date_to.getD ""))] else [])))])]

/-- The `must` list of `construct_query`, in the append order of the source:
`user_mentions`, `hashtags`, `users` (as `terms` clauses), then the
`created_at` range when either date bound is truthy. -/
def cqMust (date_from date_to : Option String)
    (user_mentions hashtags users : Option (List String)) : List Json :=
  (if pyListTruthy user_mentions then [termsClause "user_mentions" (user_mentions.getD [])] else []) ++
  (if pyListTruthy hashtags then [termsClause "hashtags" (hashtags.getD [])] else []) ++
  (if pyListTruthy users then [termsClause "screen_name" (users.getD [])] else []) ++
  (if pyStrTruthy date_from || pyStrTruthy date_to then [rangeClause date_from date_to] else [])

/-- `construct_query(text, date_from, date_to, user_mentions, hashtags,
users)`: the `filtered` query dict `q`, holding the boolean `must` filter list
and, when `text` is truthy, the relevance-scored `match` clause under its
`query` key. -/
def construct_query (text date_from date_to : Option String)
    (user_mentions hashtags users : Option (List String)) : Json :=
  Json.obj [("query", Json.obj [("filtered", Json.obj (
    ("filter", Json.obj [("bool", Json.obj
      [("must", Json.arr (cqMust date_from date_to user_mentions hashtags users))])]) ::
    (if pyStrTruthy text then
      [("query", Json.obj [("match", Json.obj [("text", Json.str (text.getD ""))])])]
     else [])))])]

/-- The filter clauses of a constructed query: the list under
`query.filtered.filter.bool.must`. -/
def mustClauses (q : Json) : List Json :=
  match (do
    let f ← q.getKey "query"
    let g ← f.getKey "filtered"
    let h ← g.getKey "filter"
    let b ← h.getKey "bool"
    (← b.getKey "must").asArr) with
  | some l => l
  | none => []

/-- The relevance-scored clause of a constructed query: the value under
`query.filtered.query`, absent when no `text` was given (match-all). -/
def matchClause (q : Json) : Option Json := do
  let f ← q.getKey "query"
  let g ← f.getKey "filtered"
  g.getKey "query"

/-- Whether a filter clause is a `range` clause. -/
def isRangeClause (j : Json) : Bool := j.hasKey "range"

/-- How many of a constructed query's filter clauses are `range` clauses. -/
def rangeCount (q : Json) : Nat := (mustClauses q).countP isRangeClause

/-! ## MD5 (`hashlib.md5`), used for the local walker's fingerprint -/

/-- Truncation to a 32-bit word. -/
def w32 (n : Nat) : Nat := n % 4294967296

/-- 32-bit left rotation. -/
def rotl32 (x c : Nat) : Nat :=
  w32 (Nat.lor (Nat.shiftLeft x c) (Nat.shiftRight x (32 - c)))

/-- 32-bit bitwise complement. -/
def mnot (x : Nat) : Nat := Nat.xor x 4294967295

/-- MD5 round function F. -/
def mF (b c d : Nat) : Nat := Nat.lor (Nat.land b c) (Nat.land (mnot b) d)

/-- MD5 round function G. -/
def mG (b c d : Nat) : Nat := Nat.lor (Nat.land b d) (Nat.land c (mnot d))

/-- MD5 round function H. -/
def mH (b c d : Nat) : Nat := Nat.xor b (Nat.xor c d)

/-- MD5 round function I. -/
def mI (b c d : Nat) : Nat := Nat.xor c (Nat.lor b (mnot d))

/-- The 64 MD5 sine-derived constants. -/
def md5K : List Nat :=
  [0xd76aa478, 0xe8c7b756, 0x242070db, 0xc1bdceee,
   0xf57c0faf, 0x4787c62a, 0xa8304613, 0xfd469501,
   0x698098d8, 0x8b44f7af, 0xffff5bb1, 0x895cd7be,
   0x6b901122, 0xfd987193, 0xa679438e, 0x49b40821,
   0xf61e2562, 0xc040b340, 0x265e5a51, 0xe9b6c7aa,
   0xd62f105d, 0x02441453, 0xd8a1e681, 0xe7d3fbc8,
   0x21e1cde6, 0xc33707d6, 0xf4d50d87, 0x455a14ed,
   0xa9e3e905, 0xfcefa3f8, 0x676f02d9, 0x8d2a4c8a,
   0xfffa3942, 0x8771f681, 0x6d9d6122, 0xfde5380c,
   0xa4beea44, 0x4bdecfa9, 0xf6bb4b60, 0xbebfbc70,
   0x289b7ec6, 0xeaa127fa, 0xd4ef3085, 0x04881d05,
   0xd9d4d039, 0xe6db99e5, 0x1fa27cf8, 0xc4ac5665,
   0xf4292244, 0x432aff97, 0xab9423a7, 0xfc93a039,
   0x655b59c3, 0x8f0ccc92, 0xffeff47d, 0x85845dd1,
   0x6fa87e4f, 0xfe2ce6e0, 0xa3014314, 0x4e0811a1,
   0xf7537e82, 0xbd3af235, 0x2ad7d2bb, 0xeb86d391]

/-- The 64 MD5 per-round shift amounts. -/
def md5S : List Nat :=
  [7, 12, 17, 22, 7, 12, 17, 22, 7, 12, 17, 22, 7, 12, 17, 22,
   5, 9, 14, 20, 5, 9, 14, 20, 5, 9, 14, 20, 5, 9, 14, 20,
   4, 11, 16, 23, 4, 11, 16, 23, 4, 11, 16, 23, 4, 11, 16, 23,
   6, 10, 15, 21, 6, 10, 15, 21, 6, 10, 15, 21, 6, 10, 15, 21]

/-- A little-endian 32-bit word from four bytes. -/
def leWord (b0 b1 b2 b3 : Nat) : Nat := b0 + b1 * 256 + b2 * 65536 + b3 * 16777216

/-- A 64-byte chunk as sixteen little-endian words. -/
def toWords : List Nat → List Nat
  | b0 :: b1 :: b2 :: b3 :: rest => leWord b0 b1 b2 b3 :: toWords rest
  | _ => []

/-- One MD5 round on the running state. -/
def md5Round (m : List Nat) (st : Nat × Nat × Nat × Nat) (i : Nat) : Nat × Nat × Nat × Nat :=
  let (a, b, c, d) := st
  let fg : Nat × Nat :=
    if i < 16 then (mF b c d, i)
    else if i < 32 then (mG b c d, (5 * i + 1) % 16)
    else if i < 48 then (mH b c d, (3 * i + 5) % 16)
    else (mI b c d, (7 * i) % 16)
  let f2 := w32 (fg.1 + a + md5K.getD i 0 + m.getD fg.2 0)
  (d, w32 (b + rotl32 f2 (md5S.getD i 0)), b, c)

/-- One 64-byte chunk absorbed into the state. -/
def md5Chunk (st : Nat × Nat × Nat × Nat) (chunk : List Nat) : Nat × Nat × Nat × Nat :=
  let m := toWords chunk
  let r := (List.range 64).foldl (md5Round m) st
  (w32 (st.1 + r.1), w32 (st.2.1 + r.2.1), w32 (st.2.2.1 + r.2.2.1), w32 (st.2.2.2 + r.2.2.2))

/-- `k` little-endian bytes of `n`. -/
def leBytes : Nat → Nat → List Nat
  | 0, _ => []
  | k + 1, n => n % 256 :: leBytes k (n / 256)

/-- MD5 padding: `0x80`, zeros to 56 mod 64, then the 64-bit bit length. -/
def md5Pad (msg : List Nat) : List Nat :=
  let len := msg.length
  let zeros := (120 - (len + 1) % 64) % 64
  msg ++ [128] ++ List.replicate zeros 0 ++ leBytes 8 (len * 8)

/-- The message split into 64-byte chunks (`fuel` bounds the recursion). -/
def chunksAux : Nat → List Nat → List (List Nat)
  | 0, _ => []
  | _, [] => []
  | n + 1, l => l.take 64 :: chunksAux n (l.drop 64)

/-- The 16 digest bytes of a byte message. -/
def md5Digest (msg : List Nat) : List Nat :=
  let padded := md5Pad msg
  let st := (chunksAux padded.length padded).foldl md5Chunk
    (1732584193, 4023233417, 2562383102, 271733878)
  leBytes 4 st.1 ++ leBytes 4 st.2.1 ++ leBytes 4 st.2.2.1 ++ leBytes 4 st.2.2.2

/-- A hex digit character. -/
def hexDigit (n : Nat) : Char := if n < 10 then Char.ofNat (48 + n) else Char.ofNat (87 + n)

/-- A byte as two lowercase hex characters. -/
def byteHex (b : Nat) : List Char := [hexDigit (b / 16), hexDigit (b % 16)]

/-- `hashlib.md5(bytes).hexdigest()`. -/
def hexdigest (msg : List Nat) : String := String.mk (((md5Digest msg).map byteHex).flatten)

/-- The bytes of an ASCII string (a Python 2 `str`). -/
def strBytes (s : String) : List Nat := s.data.map Char.toNat

/-- The fingerprint the local walker computes for a file:
`hashlib.md5(filepath).hexdigest()` — the MD5 of the PATH string. The file's
contents never enter this computation. -/
def local_fingerprint (filepath : String) : String := hexdigest (strBytes filepath)

/-! ## Duplicate detector and batch indexer -/

/-- ASCII lower-casing of one character (`str.lower` on the hex and ETag
strings at hand). -/
def lowerChar (c : Char) : Char :=
  if 65 ≤ c.toNat ∧ c.toNat ≤ 90 then Char.ofNat (c.toNat + 32) else c

/-- Python `s.lower()` on an ASCII string. -/
def strLower (s : String) : String := String.mk (s.data.map lowerChar)

/-- `already_indexed(md5, etag)`. `search field value` is the index's hit
total for the term lookup `q="field:value"`; the second component counts how
many registry lookups were performed. -/
def already_indexed (md5 etag : Option String) (search : String → String → Nat) : Bool × Nat :=
  if pyStrTruthy md5 then
    let hits := search "md5" (strLower (md5.getD ""))
    if hits != 0 then (true, 1)
    else if pyStrTruthy etag then
      (search "etag" (strLower (etag.getD "")) != 0, 2)
    else (false, 1)
  else if pyStrTruthy etag then
    (search "etag" (strLower (etag.getD "")) != 0, 1)
  else (false, 0)

/-- A Python value stored in the file-registry dict `s`: a string, or — for
the `md5` field, whose assignment in the source ends in a stray comma — a
tuple of strings. -/
inductive PyVal where
  | str (s : String)
  | tup (elems : List String)
deriving DecidableEq

/-- The `IndexedFileRecord` document the batch indexer writes: the dict `s`
of `record_tweets`. -/
structure FileDoc where
  file : String
  index_date : Nat
  md5 : Option PyVal
  etag : Option PyVal

/-- The message of the exception `record_tweets` raises when it calls
`.lower()` on a `None` fingerprint while formatting its debug log line. -/
def attributeErrorMsg : String := "AttributeError: NoneType has no attribute lower"

/-- `record_tweets(filepath, md5, etag, tweet_gen)` after the bulk write.
`bulk_result` is what `helpers.bulk` returned — an indexed count and the
per-record error list, both only logged; `now` is `datetime.datetime.now()`.
Returns the file document written and the document id it is keyed by
(`id=md5 if md5 else etag`), or the uncaught exception: the
`log.debug(..., md5.lower(), etag.lower())` line evaluates `.lower()` on BOTH
fingerprints unconditionally, so a `None` fingerprint raises `AttributeError`
before `es.index` runs. The source assigns `s['md5'] = md5.lower(),` with a
trailing comma, storing a one-element tuple. -/
def record_tweets (filepath : String) (md5 etag : Option String)
    (bulk_result : Nat × List String) (now : Nat) : Except String (FileDoc × String) :=
  let _ := bulk_result
  let filename := basename filepath
  let doc : FileDoc :=
    { file := filename
      index_date := now
      md5 := if pyStrTruthy md5 then some (PyVal.tup [strLower (md5.getD "")]) else none
      etag := if pyStrTruthy etag then some (PyVal.str (strLower (etag.getD ""))) else none }
  match md5, etag with
  | some m, some e => Except.ok (doc, if pyStrTruthy md5 then m else e)
  | _, _ => Except.error attributeErrorMsg

/-! ## Source walkers -/

/-- Whether `pat` is the beginning of `text`, character by character. -/
def charsBeginWith : List Char → List Char → Bool
  | [], _ => true
  | _ :: _, [] => false
  | p :: ps, c :: cs => p = c && charsBeginWith ps cs

/-- Python `s.startswith(pre)`. -/
def strStartsWith (s pre : String) : Bool := charsBeginWith pre.data s.data

/-- Python `s.endswith(suf)`. -/
def strEndsWith (s suf : String) : Bool := charsBeginWith suf.data.reverse s.data.reverse

/-- The local walker's filename filter: `sample-` before, `.gz` after. -/
def sampleMatch (filename : String) : Bool :=
  strStartsWith filename "sample-" && strEndsWith filename ".gz"

/-- The inner loop of `walk_local_directory` over one directory's file list.
`indexed` abstracts `already_indexed(md5, None)` on the computed fingerprint;
an entry is `(filepath, fingerprint, freshly ingested?)` — the counter
advances for already-indexed files too. `file_counter` starts at the given
value and the `break` ends only this directory's loop. -/
def walkDirFiles (indexed : String → Bool) (root : String) (max_files : Option Nat) :
    List String → Nat → List (String × String × Bool)
  | [], _ => []
  | f :: rest, counter =>
    if sampleMatch f then
      let filepath := root ++ "/" ++ f
      let md5 := local_fingerprint filepath
      let entry := (filepath, md5, !indexed md5)
      let counter1 := counter + 1
      if pyIntTruthy max_files && decide (max_files.getD 0 ≤ counter1) then [entry]
      else entry :: walkDirFiles indexed root max_files rest counter1
    else walkDirFiles indexed root max_files rest counter

/-- `walk_local_directory(dirpath, max_files)` over a directory tree given as
`os.walk` yields it: a list of `(root, files)` pairs. `file_counter = 0` is
re-initialised inside the `os.walk` loop, once per directory. -/
def walk_local_directory (indexed : String → Bool)
    (tree : List (String × List String)) (max_files : Option Nat) :
    List (String × String × Bool) :=
  (tree.map (fun rf => walkDirFiles indexed rf.1 max_files rf.2 0)).flatten

/-- `key.etag[1:-1]`: the provider's ETag with its surrounding quotes cut. -/
def stripEtagQuotes (s : String) : String := String.mk (s.data.drop 1).dropLast

/-- The loop of `walk_bucket` over the bucket listing: `file_counter` is
initialised once, every key counts, and the `break` ends the walk. -/
def walkBucketKeys (max_files : Option Nat) : List String → Nat → List String
  | [], _ => []
  | k :: rest, counter =>
    let counter1 := counter + 1
    if pyIntTruthy max_files && decide (max_files.getD 0 ≤ counter1) then [k]
    else k :: walkBucketKeys max_files rest counter1

/-- The message of the configuration error `walk_bucket` raises. -/
def awsCredErrorMsg : String :=
  "AWS_ACCESS_KEY_ID and AWS_SECRET_ACCESS_KEY must be provided as environment variables."

/-- `walk_bucket(bucket_name, max_files)`: `env_access_key` and
`env_secret_key` are `os.environ.get` of the two credential variables; the
guard runs before `S3Connection()` or any bucket access, so on failure the
result is the configuration error whatever the bucket holds. On success the
walk over the listed key names proceeds. -/
def walk_bucket (env_access_key env_secret_key : Option String)
    (keys : List String) (max_files : Option Nat) : Except String (List String) :=
  if !pyStrTruthy env_access_key || !pyStrTruthy env_secret_key then
    Except.error awsCredErrorMsg
  else
    Except.ok (walkBucketKeys max_files keys 0)

/-! ## Concrete test inputs -/

/-- A well-formed tweet-capture line: a JSON object with `id`, `user`,
`text`, `created_at` and `entities`, ending in a newline. -/
def tcLine0 : String :=
  "\x7b\"id\": 1, \"user\": \x7b\"screen_name\": \"alice\"\x7d, \"text\": \"hi\", \"created_at\": \"d1\", \"entities\": \x7b\"user_mentions\": [], \"hashtags\": []\x7d\x7d\n"

/-- A malformed line: not JSON. -/
def tcLine1 : String := "notjson\n"

/-- A decompressed file with one valid tweet line followed by one malformed
line (N = 1 valid, M = 1 malformed). -/
def tcContent : String := tcLine0 ++ tcLine1

/-- The record `gen_tweets` builds from `tcLine0` at offset 0. -/
def tweet0 : TweetRecord :=
  { file := "sample-a.gz", offset := 0, id := Json.num 1,
    screen_name := Json.str "alice", text := Json.str "hi",
    created_at := Json.str "d1", user_mentions := [], hashtags := [] }

/-! ## Helper lemmas -/

theorem isRangeClause_termsClause (f : String) (vs : List String) :
    isRangeClause (termsClause f vs) = false := by
  simp [isRangeClause, termsClause, Json.hasKey, Json.getKey]

theorem isRangeClause_rangeClause (df dt : Option String) :
    isRangeClause (rangeClause df dt) = true := by
  simp [isRangeClause, rangeClause, Json.hasKey, Json.getKey]

theorem mustClauses_construct_query (t df dt : Option String)
    (um ht us : Option (List String)) :
    mustClauses (construct_query t df dt um ht us) = cqMust df dt um ht us := by
  simp [mustClauses, construct_query, Json.getKey, Json.asArr]

set_option maxRecDepth 100000 in
/-- The MD5 embedding against the RFC 1321 test vector for "abc". -/
theorem hexdigest_abc : hexdigest (strBytes "abc") = "900150983cd24fb0d6963f7d28e17f72" := by
  rfl

set_option maxRecDepth 100000 in
/-- The MD5 embedding against the RFC 1321 test vector for "a". -/
theorem hexdigest_a : hexdigest (strBytes "a") = "0cc175b9c0f1b6a831c399e269772661" := by
  rfl

/-- The per-invocation cap DOES hold for the bucket walker, whose counter is
initialised once and whose `break` ends the whole walk. -/
theorem walkBucketKeys_length_le (n : Nat) :
    ∀ (keys : List String) (counter : Nat), counter < n →
      (walkBucketKeys (some n) keys counter).length ≤ n - counter := by
  intro keys
  induction keys with
  | nil => intro c hc; simp [walkBucketKeys]
  | cons k rest ih =>
    intro c hc
    have hn0 : pyIntTruthy (some n) = true := by
      simp only [pyIntTruthy, bne_iff_ne, ne_eq]
      omega
    by_cases hle : n ≤ c + 1
    · simp [walkBucketKeys, hn0, hle]
      omega
    · simp [walkBucketKeys, hn0, hle]
      have := ih (c + 1) (by omega)
      omega

/-! ## The claims -/

set_option maxRecDepth 100000 in
/-- **C1.** The spec says a line that fails to parse as JSON is skipped after
a warning and the rest of the file is processed, so N valid + M malformed
lines yield exactly N records. The code's `except` branch lacks a `continue`:
on `tcContent` (N = 1 valid line, M = 1 malformed line) the extractor yields
2 records instead of 1 — the stale `uline` of the valid line is re-processed
when the malformed line is reached; and a file whose FIRST line is malformed
aborts with a `NameError` (`uline` unbound) instead of being skipped. -/
theorem c1_extractor_echoes_previous_tweet_on_malformed_line :
    splitLinesKeep tcContent = [tcLine0, tcLine1] ∧
    json_loads tcLine1 = none ∧
    (gen_tweets "sample-a.gz" tcContent).1.length = 2 ∧
    (gen_tweets "sample-a.gz" tcContent).2 = none ∧
    gen_tweets "sample-a.gz" tcLine1 = ([], some "NameError") :=
  ⟨rfl, rfl, rfl, rfl, rfl⟩

set_option maxRecDepth 100000 in
/-- **C5.** The spec says every record's `offset` is the position at which
its source line begins, so seeking there re-reads that line. The duplicate
record produced by the missing-`continue` bug (see C1) carries the offset of
the MALFORMED line (129, the cursor before `tcLine1` was read), yet its
fields all come from `tcLine0`; reading one line at offset 129 yields
`"notjson\n"`, which does not parse, so no record's source line starts
there. -/
theorem c5_echoed_record_offset_points_at_malformed_line :
    gen_tweets "sample-a.gz" tcContent =
      ([tweet0, { tweet0 with offset := 129 }], none) ∧
    tcLine0.length = 129 ∧
    lineAt tcContent 129 = tcLine1 ∧
    json_loads tcLine1 = none :=
  ⟨rfl, rfl, rfl, rfl⟩

set_option maxRecDepth 100000 in
/-- **C2.** The spec calls the local walker's fingerprint a content hash,
equal for identical contents and independent of paths. The code computes
`hashlib.md5(filepath)` — the MD5 of the PATH STRING: the walk model shows
the fingerprint is a function of the path alone (file contents never enter
it), and two files named `sample-a.gz` in different directories — hence
possibly byte-identical — receive the two distinct digests below (each
checked against `hashlib.md5`). -/
theorem c2_fingerprint_hashes_path_not_content :
    walk_local_directory (fun _ => false)
        [("dir1", ["sample-a.gz"]), ("dir2", ["sample-a.gz"])] none =
      [("dir1/sample-a.gz", local_fingerprint "dir1/sample-a.gz", true),
       ("dir2/sample-a.gz", local_fingerprint "dir2/sample-a.gz", true)] ∧
    local_fingerprint "dir1/sample-a.gz" = "9a0540b1525438ef7106b4d9c4c2b086" ∧
    local_fingerprint "dir2/sample-a.gz" = "35815dc3d08fa4b66790aabc01fc2afa" ∧
    local_fingerprint "dir1/sample-a.gz" ≠ local_fingerprint "dir2/sample-a.gz" := by
  refine ⟨rfl, rfl, rfl, ?_⟩
  intro h
  rw [show local_fingerprint "dir1/sample-a.gz" = "9a0540b1525438ef7106b4d9c4c2b086" from rfl,
      show local_fingerprint "dir2/sample-a.gz" = "35815dc3d08fa4b66790aabc01fc2afa" from rfl] at h
  exact absurd h (by decide)

/-- **C3.** The spec says the batch indexer, given at least one fingerprint,
always writes exactly one IndexedFileRecord after the bulk write and never
raises. But `log.debug(..., md5.lower(), etag.lower())` evaluates `.lower()`
on both arguments unconditionally, so whenever exactly one fingerprint is
present — as in EVERY local-walker call (`etag=None`) and every bucket call
with `key.md5` unset — `record_tweets` raises `AttributeError` before
`es.index`, and no file record is written. -/
theorem c3_record_tweets_raises_when_one_fingerprint_missing :
    record_tweets "sample-x.gz" (some "ABC123") none (5, ["err1"]) 3 =
      Except.error attributeErrorMsg ∧
    record_tweets "key1.gz" none (some "ETAG99") (0, []) 3 =
      Except.error attributeErrorMsg :=
  ⟨rfl, rfl⟩

/-- **C6.** The spec says fingerprints are lower-cased for comparison AND
storage, md5 and etag stored as strings. The duplicate check does compare
lower-cased values (third conjunct), but the stored `md5` is the one-element
TUPLE `("abc",)` — the source line `s['md5'] = md5.lower(),` ends in a stray
comma — not the string `"abc"` (and a tuple is never equal to a string,
second conjunct). -/
theorem c6_md5_stored_as_tuple_not_string :
    record_tweets "sample-x.gz" (some "ABC") (some "DEF") (1, []) 7 =
      Except.ok ({ file := "sample-x.gz", index_date := 7,
                   md5 := some (PyVal.tup ["abc"]), etag := some (PyVal.str "def") }, "ABC") ∧
    (∀ s l, PyVal.str s ≠ PyVal.tup l) ∧
    (∀ search : String → String → Nat,
      already_indexed (some "ABC") none search = (search "md5" "abc" != 0, 1)) := by
  refine ⟨rfl, fun s l h => PyVal.noConfusion h, fun search => ?_⟩
  show (if (search "md5" "abc" != 0) = true then ((true, 1) : Bool × Nat) else (false, 1)) =
    (search "md5" "abc" != 0, 1)
  cases h : search "md5" "abc" != 0 <;> simp [h]

/-- **C4.** The query builder: no fields → a match-all query (no scored
clause, empty filter list); a non-empty `users` (likewise `user_mentions`,
`hashtags`) list → exactly one OR-semantics `terms` filter clause over that
field; `text` combined with `hashtags` → the relevance-scored `match` clause
in the query position AND exactly one `terms` clause in the (unscored)
filter position. -/
theorem c4_query_builder_composition :
    (mustClauses (construct_query none none none none none none) = [] ∧
      matchClause (construct_query none none none none none none) = none) ∧
    (∀ us : List String, us ≠ [] →
      mustClauses (construct_query none none none none none (some us)) =
        [termsClause "screen_name" us] ∧
      matchClause (construct_query none none none none none (some us)) = none) ∧
    (∀ um : List String, um ≠ [] →
      mustClauses (construct_query none none none (some um) none none) =
        [termsClause "user_mentions" um]) ∧
    (∀ ht : List String, ht ≠ [] →
      mustClauses (construct_query none none none none (some ht) none) =
        [termsClause "hashtags" ht]) ∧
    (∀ (t : String) (ht : List String), t ≠ "" → ht ≠ [] →
      matchClause (construct_query (some t) none none none (some ht) none) =
        some (Json.obj [("match", Json.obj [("text", Json.str t)])]) ∧
      mustClauses (construct_query (some t) none none none (some ht) none) =
        [termsClause "hashtags" ht]) := by
  refine ⟨⟨rfl, rfl⟩, ?_, ?_, ?_, ?_⟩
  · intro us h
    cases us with
    | nil => exact absurd rfl h
    | cons a l => exact ⟨rfl, rfl⟩
  · intro um h
    cases um with
    | nil => exact absurd rfl h
    | cons a l => exact rfl
  · intro ht h
    cases ht with
    | nil => exact absurd rfl h
    | cons a l => exact rfl
  · intro t ht h1 h2
    cases t with
    | mk td =>
      cases td with
      | nil => exact absurd rfl h1
      | cons c cs =>
        cases ht with
        | nil => exact absurd rfl h2
        | cons a l => exact ⟨rfl, rfl⟩

/-- Witness for C4 at the spec's own examples: `users=["a","b"]`,
`text="foo"` with `hashtags=["bar"]`. -/
theorem c4_query_builder_composition_witness :
    mustClauses (construct_query none none none none none (some ["a", "b"])) =
      [termsClause "screen_name" ["a", "b"]] ∧
    (matchClause (construct_query (some "foo") none none none (some ["bar"]) none) =
      some (Json.obj [("match", Json.obj [("text", Json.str "foo")])]) ∧
     mustClauses (construct_query (some "foo") none none none (some ["bar"]) none) =
      [termsClause "hashtags" ["bar"]]) :=
  ⟨(c4_query_builder_composition.2.1 ["a", "b"] (by decide)).1,
   c4_query_builder_composition.2.2.2.2 "foo" ["bar"] (by decide) (by decide)⟩

/-- **C7.** The `created_at` range filter: only `date_from` set gives one
range clause with an inclusive `gte` bound and no `lte`; both set give one
clause with both inclusive bounds; and over ALL argument combinations the
number of range clauses among the filters is 1 exactly when either date is
present (truthy), else 0. -/
theorem c7_date_range_clause :
    (∀ df : String, df ≠ "" →
      mustClauses (construct_query none (some df) none none none none) =
        [Json.obj [("range", Json.obj [("created_at", Json.obj [("gte", Json.str df)])])]]) ∧
    (∀ df dt : String, df ≠ "" → dt ≠ "" →
      mustClauses (construct_query none (some df) (some dt) none none none) =
        [Json.obj [("range", Json.obj
          [("created_at", Json.obj [("gte", Json.str df), ("lte", Json.str dt)])])]]) ∧
    (∀ (t df dt : Option String) (um ht us : Option (List String)),
      rangeCount (construct_query t df dt um ht us) =
        if pyStrTruthy df || pyStrTruthy dt then 1 else 0) := by
  refine ⟨?_, ?_, ?_⟩
  · intro df h
    cases df with
    | mk dd =>
      cases dd with
      | nil => exact absurd rfl h
      | cons c cs => exact rfl
  · intro df dt h1 h2
    cases df with
    | mk dd =>
      cases dd with
      | nil => exact absurd rfl h1
      | cons c cs =>
        cases dt with
        | mk ed =>
          cases ed with
          | nil => exact absurd rfl h2
          | cons e es => exact rfl
  · intro t df dt um ht us
    unfold rangeCount
    rw [mustClauses_construct_query]
    unfold cqMust
    cases hum : pyListTruthy um <;> cases hht : pyListTruthy ht <;>
      cases hus : pyListTruthy us <;> cases hd : (pyStrTruthy df || pyStrTruthy dt) <;>
      simp [List.countP_append, List.countP_cons, List.countP_nil,
            isRangeClause_termsClause, isRangeClause_rangeClause]

/-- Witness for C7: `date_from="2015-01-01"` alone, then with
`date_to="2015-02-01"`. -/
theorem c7_date_range_clause_witness :
    mustClauses (construct_query none (some "2015-01-01") none none none none) =
      [Json.obj [("range", Json.obj [("created_at", Json.obj [("gte", Json.str "2015-01-01")])])]] ∧
    mustClauses (construct_query none (some "2015-01-01") (some "2015-02-01") none none none) =
      [Json.obj [("range", Json.obj
        [("created_at", Json.obj [("gte", Json.str "2015-01-01"), ("lte", Json.str "2015-02-01")])])]] ∧
    rangeCount (construct_query none (some "2015-01-01") (some "2015-02-01") none none none) = 1 :=
  ⟨c7_date_range_clause.1 "2015-01-01" (by decide),
   c7_date_range_clause.2.1 "2015-01-01" "2015-02-01" (by decide) (by decide),
   (c7_date_range_clause.2.2 none (some "2015-01-01") (some "2015-02-01") none none none).trans
     (by decide)⟩

set_option maxRecDepth 100000 in
/-- **C8.** The spec says `max_files` caps the files processed PER
INVOCATION, across all subdirectories (and the CLI help reads "Max number of
files to index"). But `file_counter = 0` sits inside the `os.walk` loop and
the `break` leaves only the inner loop: a tree of two directories with one
matching file each, walked with `max_files = 1`, processes BOTH files. (For
the bucket walker the cap does hold: `walkBucketKeys_length_le`.) -/
theorem c8_max_files_cap_resets_per_directory :
    (walk_local_directory (fun _ => false)
        [("a", ["sample-1.gz"]), ("b", ["sample-2.gz"])] (some 1)).map (fun e => e.1) =
      ["a/sample-1.gz", "b/sample-2.gz"] ∧
    (walk_local_directory (fun _ => false)
        [("a", ["sample-1.gz"]), ("b", ["sample-2.gz"])] (some 1)).length = 2 :=
  ⟨rfl, rfl⟩

/-- **C9.** `walk_bucket` raises its configuration error whenever either
credential environment value is unset or empty — before any bucket access,
so the result is the same error for every bucket content — and raises no
such error when both are set non-empty. -/
theorem c9_walk_bucket_credential_guard :
    (∀ (a b : Option String) (keys : List String) (mf : Option Nat),
      pyStrTruthy a = false ∨ pyStrTruthy b = false →
        walk_bucket a b keys mf = Except.error awsCredErrorMsg) ∧
    (∀ (a b : Option String) (keys : List String) (mf : Option Nat),
      pyStrTruthy a = true → pyStrTruthy b = true →
        ∃ processed, walk_bucket a b keys mf = Except.ok processed) := by
  constructor
  · intro a b keys mf h
    unfold walk_bucket
    rcases h with h | h <;> simp [h]
  · intro a b keys mf ha hb
    exact ⟨walkBucketKeys mf keys 0, by unfold walk_bucket; simp [ha, hb]⟩

/-- Witness for C9: a missing access key aborts whatever the bucket holds; a
present pair does not. -/
theorem c9_walk_bucket_credential_guard_witness :
    walk_bucket none (some "sk") ["k1"] none = Except.error awsCredErrorMsg ∧
    (∃ processed, walk_bucket (some "ak") (some "sk") ["k1"] none = Except.ok processed) :=
  ⟨c9_walk_bucket_credential_guard.1 none (some "sk") ["k1"] none (Or.inl rfl),
   c9_walk_bucket_credential_guard.2 (some "ak") (some "sk") ["k1"] none rfl rfl⟩

/-- **C10.** With neither fingerprint present, `already_indexed` falls
through both truthiness guards: it returns `False` and performs zero
registry lookups, for every search backend. -/
theorem c10_already_indexed_without_fingerprint_is_false_and_no_lookup :
    ∀ search : String → String → Nat, already_indexed none none search = (false, 0) :=
  fun _ => rfl

end T2E
